import Mathlib

/-!
Shallow embedding of the resolution and normalization layer of the
nba-stats-agent repository.  The repository holds two near-identical
implementations of the agent: `src/src/index.ts` (called `Idx` below) and
`src/unnamed/part_000` (called `P0` below).  JavaScript strings are modelled
as `List Char`; JS `undefined`/missing fields are modelled as `Option`;
functions that can throw return `Except`.
-/

deriving instance DecidableEq for Except

namespace NBA

/-! ## JavaScript string primitives (modelled on `List Char`) -/

/-- The full whitespace class skipped by `String.prototype.trim` and
`parseInt` (ECMAScript WhiteSpace plus LineTerminator): TAB..CR, SP, NBSP,
OGHAM SPACE, U+2000..U+200A, LS, PS, NNBSP, MMSP, IDEOGRAPHIC SPACE, ZWNBSP. -/
def jsIsSpace (c : Char) : Bool :=
  (decide (9 ≤ c.toNat) && decide (c.toNat ≤ 13)) || decide (c.toNat = 32) ||
    decide (c.toNat = 160) || decide (c.toNat = 5760) ||
    (decide (8192 ≤ c.toNat) && decide (c.toNat ≤ 8202)) ||
    decide (c.toNat = 8232) || decide (c.toNat = 8233) ||
    decide (c.toNat = 8239) || decide (c.toNat = 8287) ||
    decide (c.toNat = 12288) || decide (c.toNat = 65279)

/-- Digit class of the regular expression `\d` (code points 48-57; JS `\d`
and `parseInt` accept no other digits). -/
def jsIsDigit (c : Char) : Bool :=
  decide (48 ≤ c.toNat) && decide (c.toNat ≤ 57)

/-- A string of ASCII characters only.  On this domain the character-level
case mappings below agree exactly with the Unicode-aware JS
`toLowerCase`/`toUpperCase`; the resolver theorems whose truth depends on a
lookup MISS after case normalization therefore quantify over ASCII
identifiers. -/
def jsAscii (s : List Char) : Bool := s.all (fun c => decide (c.toNat ≤ 127))

/-- Behaviour of `String.prototype.toLowerCase` on one character, exact on
the ASCII range (outside it JS applies Unicode case mappings, e.g. U+212A to
`k`, which this model leaves unchanged). -/
def jsToLowerChar (c : Char) : Char :=
  if 65 ≤ c.toNat ∧ c.toNat ≤ 90 then Char.ofNat (c.toNat + 32) else c

/-- Behaviour of `String.prototype.toUpperCase` on one character, exact on
the ASCII range (outside it JS applies Unicode case mappings, e.g. U+017F to
`S`, which this model leaves unchanged). -/
def jsToUpperChar (c : Char) : Char :=
  if 97 ≤ c.toNat ∧ c.toNat ≤ 122 then Char.ofNat (c.toNat - 32) else c

def jsToLower (s : List Char) : List Char := s.map jsToLowerChar

def jsToUpper (s : List Char) : List Char := s.map jsToUpperChar

/-- Model of `String.prototype.trim`. -/
def jsTrim (s : List Char) : List Char :=
  ((s.dropWhile jsIsSpace).reverse.dropWhile jsIsSpace).reverse

/-- Value of the longest leading decimal digit run; `none` when it is empty
(which JS `parseInt` reports as `NaN`). -/
def decDigitsVal (s : List Char) : Option Nat :=
  if (s.takeWhile jsIsDigit).isEmpty then none
  else some ((s.takeWhile jsIsDigit).foldl (fun a c => a * 10 + (c.toNat - 48)) 0)

def jsIsHexDigit (c : Char) : Bool :=
  jsIsDigit c || (decide (65 ≤ c.toNat) && decide (c.toNat ≤ 70)) ||
    (decide (97 ≤ c.toNat) && decide (c.toNat ≤ 102))

def hexDigitVal (c : Char) : Nat :=
  if c.toNat ≤ 57 then c.toNat - 48 else if c.toNat ≤ 70 then c.toNat - 55
  else c.toNat - 87

def hexDigitsVal (s : List Char) : Option Nat :=
  if (s.takeWhile jsIsHexDigit).isEmpty then none
  else some ((s.takeWhile jsIsHexDigit).foldl (fun a c => a * 16 + hexDigitVal c) 0)

/-- Magnitude part of JS `parseInt` with the radix argument omitted: a leading
`0x`/`0X` selects hexadecimal, otherwise the longest leading decimal run. -/
def jsParseIntBody : List Char → Option Nat
  | '0' :: c :: rest =>
    if c = 'x' ∨ c = 'X' then hexDigitsVal rest else decDigitsVal ('0' :: c :: rest)
  | s => decDigitsVal s

/-- Model of JS `parseInt(s)` (no radix argument): skip leading whitespace,
read an optional sign, then parse the body; `none` models `NaN`. -/
def jsParseInt (s : List Char) : Option Int :=
  match s.dropWhile jsIsSpace with
  | '-' :: rest => Option.map (fun n => -(n : Int)) (jsParseIntBody rest)
  | '+' :: rest => Option.map (fun n => (n : Int)) (jsParseIntBody rest)
  | t => Option.map (fun n => (n : Int)) (jsParseIntBody t)

/-- Model of the test `/^\d+$/.test(team)` from part_000's `resolveTeamId`. -/
def digitsOnly (s : List Char) : Bool := !s.isEmpty && s.all jsIsDigit

/-! ## Entity resolver, part_000 flavour (`resolveTeamId` in `src/unnamed/part_000`) -/

/-- The static alias table `TEAM_ABBR_TO_ID` of `src/unnamed/part_000`; keys
and values are JS strings. -/
def TEAM_ABBR_TO_ID : List (List Char × List Char) :=
  [("ATL".data, "1".data), ("BOS".data, "2".data), ("BKN".data, "17".data),
   ("CHA".data, "30".data), ("CHI".data, "4".data),
   ("CLE".data, "5".data), ("DAL".data, "6".data), ("DEN".data, "7".data),
   ("DET".data, "8".data), ("GSW".data, "9".data),
   ("HOU".data, "10".data), ("IND".data, "11".data), ("LAC".data, "12".data),
   ("LAL".data, "13".data), ("MEM".data, "29".data),
   ("MIA".data, "14".data), ("MIL".data, "15".data), ("MIN".data, "16".data),
   ("NOP".data, "3".data), ("NYK".data, "18".data),
   ("OKC".data, "25".data), ("ORL".data, "19".data), ("PHI".data, "20".data),
   ("PHX".data, "21".data), ("POR".data, "22".data),
   ("SAC".data, "23".data), ("SAS".data, "24".data), ("TOR".data, "28".data),
   ("UTA".data, "26".data), ("WAS".data, "27".data)]

def unknownTeamMsgP0 (team : List Char) : List Char :=
  "Unknown team: ".data ++ team ++
    ". Use team abbreviation (e.g., LAL, BOS, GSW) or ESPN team ID.".data

/-- A value produced by the JS property read `tbl[key]` on a plain object
literal: either an own property of the literal, or a member inherited from
`Object.prototype` (a function, or the prototype object for `__proto__`). -/
inductive JsPropValue (α : Type) where
  | own (v : α)
  | inherited (name : List Char)
  deriving DecidableEq

/-- The own property names of `Object.prototype`, reachable through the
prototype chain of every plain object literal. -/
def objectProtoKeys : List (List Char) :=
  ["constructor".data, "hasOwnProperty".data, "isPrototypeOf".data,
   "propertyIsEnumerable".data, "toLocaleString".data, "toString".data,
   "valueOf".data, "__proto__".data, "__defineGetter__".data,
   "__defineSetter__".data, "__lookupGetter__".data, "__lookupSetter__".data]

/-- Model of the JS property read `tbl[key]` on a plain object literal: an
own property when the key is present, else the inherited `Object.prototype`
member for its property names, else `undefined`.  Inherited members are
functions or objects, hence always truthy. -/
def jsGetProp {α : Type} (tbl : List (List Char × α)) (key : List Char) :
    Option (JsPropValue α) :=
  match List.lookup key tbl with
  | some v => some (JsPropValue.own v)
  | none =>
    if key ∈ objectProtoKeys then some (JsPropValue.inherited key) else none

/-- The JS value returned by part_000's `resolveTeamId`: a string from the
alias table or the numeric fallback, or an inherited `Object.prototype`
member hit by the alias lookup. -/
inductive P0Resolved where
  | str (s : List Char)
  | protoMember (name : List Char)
  deriving DecidableEq

/-- Numeric fallback of part_000's resolver: `if (/^\d+$/.test(team)) return team;`
followed by the throw. -/
def p0NumericFallback (team : List Char) : Except (List Char) P0Resolved :=
  if digitsOnly team then Except.ok (P0Resolved.str team)
  else Except.error (unknownTeamMsgP0 team)

/-- Model of `resolveTeamId` from `src/unnamed/part_000`: upper-case the
input and read the alias table (a property read that can hit inherited
`Object.prototype` members, followed by a JS truthiness test — inherited
members are truthy and are returned; an empty-string own value would fall
through), else accept a digits-only string verbatim, else throw. -/
def resolveTeamIdP0 (team : List Char) : Except (List Char) P0Resolved :=
  match jsGetProp TEAM_ABBR_TO_ID (jsToUpper team) with
  | some (JsPropValue.own v) =>
    if v.isEmpty then p0NumericFallback team else Except.ok (P0Resolved.str v)
  | some (JsPropValue.inherited k) => Except.ok (P0Resolved.protoMember k)
  | none => p0NumericFallback team

/-! ## Entity resolver, index.ts flavour (`resolveTeamId` in `src/src/index.ts`) -/

/-- The static alias table `TEAM_IDS` of `src/src/index.ts`; keys are JS
strings, values are JS numbers (always integral here). -/
def TEAM_IDS : List (List Char × Int) :=
  [("hawks".data, 1), ("atl".data, 1), ("atlanta".data, 1),
   ("celtics".data, 2), ("bos".data, 2), ("boston".data, 2),
   ("nets".data, 17), ("bkn".data, 17), ("brooklyn".data, 17),
   ("hornets".data, 30), ("cha".data, 30), ("charlotte".data, 30),
   ("bulls".data, 4), ("chi".data, 4), ("chicago".data, 4),
   ("cavaliers".data, 5), ("cle".data, 5), ("cleveland".data, 5), ("cavs".data, 5),
   ("mavericks".data, 6), ("dal".data, 6), ("dallas".data, 6), ("mavs".data, 6),
   ("nuggets".data, 7), ("den".data, 7), ("denver".data, 7),
   ("pistons".data, 8), ("det".data, 8), ("detroit".data, 8),
   ("warriors".data, 9), ("gsw".data, 9), ("golden state".data, 9),
   ("rockets".data, 10), ("hou".data, 10), ("houston".data, 10),
   ("pacers".data, 11), ("ind".data, 11), ("indiana".data, 11),
   ("clippers".data, 12), ("lac".data, 12), ("la clippers".data, 12),
   ("lakers".data, 13), ("lal".data, 13), ("la lakers".data, 13),
   ("los angeles lakers".data, 13),
   ("grizzlies".data, 29), ("mem".data, 29), ("memphis".data, 29),
   ("heat".data, 14), ("mia".data, 14), ("miami".data, 14),
   ("bucks".data, 15), ("mil".data, 15), ("milwaukee".data, 15),
   ("timberwolves".data, 16), ("min".data, 16), ("minnesota".data, 16),
   ("wolves".data, 16),
   ("pelicans".data, 3), ("nop".data, 3), ("new orleans".data, 3),
   ("knicks".data, 18), ("nyk".data, 18), ("new york".data, 18),
   ("thunder".data, 25), ("okc".data, 25), ("oklahoma city".data, 25),
   ("magic".data, 19), ("orl".data, 19), ("orlando".data, 19),
   ("76ers".data, 20), ("phi".data, 20), ("philadelphia".data, 20),
   ("sixers".data, 20),
   ("suns".data, 21), ("phx".data, 21), ("phoenix".data, 21),
   ("trail blazers".data, 22), ("por".data, 22), ("portland".data, 22),
   ("blazers".data, 22),
   ("kings".data, 23), ("sac".data, 23), ("sacramento".data, 23),
   ("spurs".data, 24), ("sas".data, 24), ("san antonio".data, 24),
   ("raptors".data, 28), ("tor".data, 28), ("toronto".data, 28),
   ("jazz".data, 26), ("uta".data, 26), ("utah".data, 26),
   ("wizards".data, 27), ("was".data, 27), ("washington".data, 27)]

def unknownTeamMsgIdx (team : List Char) : List Char :=
  "Unknown team: ".data ++ team ++ ". Use team name, abbreviation, or ID (1-30)".data

/-- The JS value returned by index.ts's `resolveTeamId`: a number from the
alias table or from `parseInt`, or an inherited `Object.prototype` member hit
by the alias lookup (for inputs normalizing to `constructor` or
`__proto__`). -/
inductive IdxResolved where
  | num (n : Int)
  | protoMember (name : List Char)
  deriving DecidableEq

/-- Numeric fallback of index.ts's resolver: `parseInt` on the raw input with a
1..30 range check, else the throw. -/
def idxNumericFallback (team : List Char) : Except (List Char) IdxResolved :=
  match jsParseInt team with
  | some n =>
    if 1 ≤ n ∧ n ≤ 30 then Except.ok (IdxResolved.num n)
    else Except.error (unknownTeamMsgIdx team)
  | none => Except.error (unknownTeamMsgIdx team)

/-- Model of `resolveTeamId` from `src/src/index.ts`: lower-case and trim the
input and read the alias table (a property read that can hit inherited
`Object.prototype` members, followed by a JS truthiness test — inherited
members are truthy and are returned; a 0 own value would fall through), else
`parseInt` the raw input with a 1..30 range check, else throw. -/
def resolveTeamIdIdx (team : List Char) : Except (List Char) IdxResolved :=
  match jsGetProp TEAM_IDS (jsTrim (jsToLower team)) with
  | some (JsPropValue.own v) =>
    if v = 0 then idxNumericFallback team else Except.ok (IdxResolved.num v)
  | some (JsPropValue.inherited k) => Except.ok (IdxResolved.protoMember k)
  | none => idxNumericFallback team

/-! ## Upstream payload shapes

Each structure mirrors exactly the fields the handlers read from the ESPN
JSON; every field the upstream may omit is an `Option`.  Scalar leaf values
(ids, names, scores, dates, ...) are copied through opaquely by the handlers,
so they are all modelled as `String`. -/

structure TeamRef where
  displayName : Option String
  abbreviation : Option String
  deriving DecidableEq

structure StatusType where
  description : Option String
  shortDetail : Option String
  state : Option String
  completed : Option Bool
  deriving DecidableEq

structure EventStatus where
  type : Option StatusType
  period : Option String
  displayClock : Option String
  deriving DecidableEq

structure Venue where
  fullName : Option String
  deriving DecidableEq

structure Broadcast where
  names : Option (List String)
  deriving DecidableEq

structure Competitor where
  homeAway : Option String
  team : Option TeamRef
  score : Option String
  winner : Option Bool
  deriving DecidableEq

structure Competition where
  venue : Option Venue
  competitors : Option (List Competitor)
  broadcasts : Option (List Broadcast)
  deriving DecidableEq

structure Event where
  id : Option String
  name : Option String
  shortName : Option String
  date : Option String
  status : Option EventStatus
  competitions : Option (List Competition)
  deriving DecidableEq

structure DayInfo where
  date : Option String
  deriving DecidableEq

/-- Shape of the `/scoreboard` response (the `season` object is copied through
opaquely). -/
structure ScoreboardPayload where
  events : Option (List Event)
  day : Option DayInfo
  season : Option String
  deriving DecidableEq

/-- Shape of the `/teams/:id/schedule` response. -/
structure SchedulePayload where
  events : Option (List Event)
  deriving DecidableEq

structure PositionRef where
  abbreviation : Option String
  deriving DecidableEq

structure Athlete where
  id : Option String
  displayName : Option String
  jersey : Option String
  age : Option String
  displayHeight : Option String
  displayWeight : Option String
  position : Option PositionRef
  deriving DecidableEq

structure Logo where
  href : Option String
  deriving DecidableEq

structure TeamInfo where
  id : Option String
  displayName : Option String
  abbreviation : Option String
  location : Option String
  color : Option String
  logo : Option String
  logos : Option (List Logo)
  deriving DecidableEq

/-- Shape of the `/teams/:id` response. -/
structure TeamsPayload where
  team : Option TeamInfo
  deriving DecidableEq

/-- Shape of the `/teams/:id/roster` response. -/
structure RosterPayload where
  team : Option TeamInfo
  athletes : Option (List Athlete)
  deriving DecidableEq

structure LeaderStat where
  name : Option String
  value : Option String
  deriving DecidableEq

structure LeaderCategory where
  stats : Option (List LeaderStat)
  deriving DecidableEq

structure LeaderAthleteInfo where
  displayName : Option String
  teamShortName : Option String
  position : Option PositionRef
  deriving DecidableEq

structure LeaderEntry where
  athlete : Option LeaderAthleteInfo
  categories : Option (List LeaderCategory)
  deriving DecidableEq

/-- Shape of the `/statistics/byathlete` response. -/
structure LeadersPayload where
  athletes : Option (List LeaderEntry)
  deriving DecidableEq

/-! ## Upstream client (`fetchJSON` in both implementations)

Both files define the same client:
`const response = await fetch(url); if (!response.ok) throw new Error(...);
return response.json();`.  A network-level rejection of `fetch` itself is the
`fail` outcome; a served response carries its HTTP status and parsed body. -/

/-- Error taxonomy of the upstream client.  `espnApiError s` stands for the
thrown JS `Error` whose message interpolates the raw status:
`ESPN API error: ${response.status}`. -/
inductive UpstreamError where
  | espnApiError (status : Nat)
  | transportError
  deriving DecidableEq

/-- Outcome of the underlying `fetch` call: either the network call itself
fails, or the provider serves a response with an HTTP status and a body. -/
inductive FetchOutcome (α : Type) where
  | fail
  | resp (status : Nat) (body : α)
  deriving DecidableEq

/-- The WHATWG fetch `Response.ok` flag: status in the range 200..299. -/
def responseOk (status : Nat) : Bool := decide (200 ≤ status) && decide (status ≤ 299)

/-- Model of `fetchJSON`: propagate a transport failure, throw on a non-ok
status carrying the raw status, return the parsed body otherwise. -/
def fetchJSON {α : Type} : FetchOutcome α → Except UpstreamError α
  | .fail => Except.error UpstreamError.transportError
  | .resp status body =>
    if responseOk status then Except.ok body
    else Except.error (UpstreamError.espnApiError status)

/-! ## Normalizers -/

/-- Model of JS `arr.map((a, i) => f i a)` starting at index `i`. -/
def mapWithIndexFrom {α β : Type} (f : Nat → α → β) : Nat → List α → List β
  | _, [] => []
  | i, a :: as => f i a :: mapWithIndexFrom f (i + 1) as

/-- One game of the free `overview` entrypoint of `src/src/index.ts`. -/
structure OverviewGame where
  name : Option String
  status : Option String
  date : Option String
  deriving DecidableEq

def overviewGame (e : Event) : OverviewGame :=
  { name := e.shortName
    status := (e.status.bind (·.type)).bind (·.description)
    date := e.date }

/-- Output of the free `overview` entrypoint of `src/src/index.ts` (the
wall-clock `fetchedAt` field and the constant `dataSource` string are outside
the model). -/
structure OverviewOutput where
  league : String
  season : Option String
  gamesCount : Nat
  games : List OverviewGame
  deriving DecidableEq

/-- Model of the `overview` handler of `src/src/index.ts`: map all events,
report `gamesCount` over the full list, then `slice(0, 5)`. -/
def overviewHandler (data : ScoreboardPayload) : OverviewOutput :=
  let games := (Option.map (List.map overviewGame) data.events).getD []
  { league := "NBA"
    season := data.season
    gamesCount := games.length
    games := games.take 5 }

/-- One game of the `scores` entrypoint of `src/unnamed/part_000`. -/
structure ScoreGame where
  id : Option String
  matchup : Option String
  status : Option String
  statusState : Option String
  homeTeam : Option String
  homeScore : Option String
  awayTeam : Option String
  awayScore : Option String
  venue : Option String
  broadcast : Option String
  deriving DecidableEq

/-- Model of the per-event normalizer inside the `scores` handler of
`src/unnamed/part_000`; each field follows the optional-chaining path of the
source line for line. -/
def scoreGame (e : Event) : ScoreGame :=
  let comp := e.competitions.bind List.head?
  let home := (comp.bind (·.competitors)).bind
    (List.find? (fun c => c.homeAway == some "home"))
  let away := (comp.bind (·.competitors)).bind
    (List.find? (fun c => c.homeAway == some "away"))
  { id := e.id
    matchup := e.shortName
    status := (e.status.bind (·.type)).bind (·.shortDetail)
    statusState := (e.status.bind (·.type)).bind (·.state)
    homeTeam := (home.bind (·.team)).bind (·.abbreviation)
    homeScore := home.bind (·.score)
    awayTeam := (away.bind (·.team)).bind (·.abbreviation)
    awayScore := away.bind (·.score)
    venue := (comp.bind (·.venue)).bind (·.fullName)
    broadcast := (((comp.bind (·.broadcasts)).bind List.head?).bind (·.names)).bind
      List.head? }

/-- Output of the `scores` entrypoint of `src/unnamed/part_000`
(`fetchedAt` outside the model). -/
structure ScoresOutput where
  date : Option String
  games : List ScoreGame
  deriving DecidableEq

/-- Model of the `scores` handler of `src/unnamed/part_000`. -/
def scoresHandler (data : ScoreboardPayload) : ScoresOutput :=
  { date := data.day.bind (·.date)
    games := (Option.map (List.map scoreGame) data.events).getD [] }

/-- JS runtime errors that abort a handler; `typeError` stands for the
`TypeError` thrown when a property of `undefined` is read. -/
inductive JsError where
  | typeError
  deriving DecidableEq

structure RosterEntryIdx where
  id : Option String
  name : Option String
  jersey : Option String
  position : Option String
  age : Option String
  deriving DecidableEq

def rosterEntryIdx (a : Athlete) : RosterEntryIdx :=
  { id := a.id
    name := a.displayName
    jersey := a.jersey
    position := a.position.bind (·.abbreviation)
    age := a.age }

structure TeamOutIdx where
  id : Option String
  name : Option String
  abbreviation : Option String
  location : Option String
  color : Option String
  logo : Option String
  deriving DecidableEq

/-- Output of the `team` entrypoint of `src/src/index.ts`
(`fetchedAt` outside the model). -/
structure TeamHandlerOutIdx where
  team : TeamOutIdx
  rosterCount : Nat
  roster : List RosterEntryIdx
  deriving DecidableEq

/-- Model of the normalization step of the `team` handler of
`src/src/index.ts`.  The source does `const team = teamData.team;` and then
reads `team.id`, `team.displayName`, ... with no guard and no optional
chaining, so when the upstream payload has no `team` object the handler
throws a `TypeError` instead of producing a record. -/
def teamHandlerIdx (teamData : TeamsPayload) (rosterData : RosterPayload) :
    Except JsError TeamHandlerOutIdx :=
  let roster := (Option.map (List.map rosterEntryIdx) rosterData.athletes).getD []
  match teamData.team with
  | none => Except.error JsError.typeError
  | some t =>
    Except.ok
      { team :=
          { id := t.id
            name := t.displayName
            abbreviation := t.abbreviation
            location := t.location
            color := t.color
            logo := (t.logos.bind List.head?).bind (·.href) }
        rosterCount := roster.length
        roster := roster.take 15 }

structure StarterOut where
  name : Option String
  position : Option String
  jersey : Option String
  deriving DecidableEq

def starterOut (p : Athlete) : StarterOut :=
  { name := p.displayName
    position := p.position.bind (·.abbreviation)
    jersey := p.jersey }

/-- Output shape of `extractTeamInfo` in the `matchup` handler of
`src/unnamed/part_000`.  `rosterSize` is a plain number in the source
(`roster.athletes?.length || 0`), so the output always carries a number
there, never an absent marker. -/
structure TeamInfoOut where
  name : Option String
  abbreviation : Option String
  rosterSize : Nat
  starters : List StarterOut
  deriving DecidableEq

/-- Model of `extractTeamInfo` from the `matchup` handler of
`src/unnamed/part_000`. -/
def extractTeamInfo (roster : RosterPayload) : TeamInfoOut :=
  { name := roster.team.bind (·.displayName)
    abbreviation := roster.team.bind (·.abbreviation)
    rosterSize := (Option.map List.length roster.athletes).getD 0
    starters :=
      (Option.map (fun l => (l.take 5).map starterOut) roster.athletes).getD [] }

/-- JS truthiness of `e.status?.type?.completed`. -/
def eventCompleted (e : Event) : Bool :=
  (((e.status.bind (·.type)).bind (·.completed)).getD false : Bool)

/-- JS truthiness of `e.competitions?.[0]?.competitors?.find((c) => c.winner)`:
some competitor of the first competition has a truthy `winner`. -/
def eventHasWinner (e : Event) : Bool :=
  ((((e.competitions.bind List.head?).bind (·.competitors)).getD []).any
    (fun c => c.winner.getD false))

structure TeamRecordOut where
  wins : Nat
  losses : Int
  gamesPlayed : Nat
  deriving DecidableEq

/-- Model of `extractRecord` from the `matchup` handler of
`src/unnamed/part_000`. -/
def extractRecord (schedule : SchedulePayload) : TeamRecordOut :=
  let wins :=
    ((Option.map (List.filter (fun e => eventCompleted e && eventHasWinner e))
      schedule.events).getD []).length
  let completed :=
    ((Option.map (List.filter eventCompleted) schedule.events).getD []).length
  { wins := wins
    losses := (completed : Int) - (wins : Int)
    gamesPlayed := completed }

/-- One side of the `matchup` output; the source spreads
`...extractTeamInfo(roster)` next to `record`, modelled here as nested
`info`/`record` fields. -/
structure MatchupSide where
  info : TeamInfoOut
  record : TeamRecordOut
  deriving DecidableEq

/-- Output of the `matchup` entrypoint of `src/unnamed/part_000`
(`analysis` note and `fetchedAt` outside the model). -/
structure MatchupOutput where
  matchup : List Char
  homeTeam : MatchupSide
  awayTeam : MatchupSide
  deriving DecidableEq

/-- Pure aggregation step of the `matchup` handler: keyed by logical role,
home fields from the home calls, away fields from the away calls. -/
def matchupAggregate (homeIn awayIn : List Char) (hr ar : RosterPayload)
    (hs asch : SchedulePayload) : MatchupOutput :=
  { matchup := jsToUpper awayIn ++ " @ ".data ++ jsToUpper homeIn
    homeTeam := { info := extractTeamInfo hr, record := extractRecord hs }
    awayTeam := { info := extractTeamInfo ar, record := extractRecord asch } }

/-! ## Fetch orchestration of the `matchup` entrypoint

The handler issues four independent upstream calls through `Promise.all` and
awaits the joined promise.  `Promise.all` settles the join as soon as the
first rejection is observed, in completion-time order, and otherwise fulfills
with the results keyed by position (role), never by completion order.  The
completion order of the four calls is modelled explicitly as a list of roles
so that order (in)dependence is a provable statement. -/

/-- The four logical roles of the `matchup` fan-out. -/
inductive Role where
  | homeRoster
  | awayRoster
  | homeSchedule
  | awaySchedule
  deriving DecidableEq

/-- The settled outcomes of the four upstream calls of one `matchup` request. -/
structure MatchupCalls where
  homeRoster : Except UpstreamError RosterPayload
  awayRoster : Except UpstreamError RosterPayload
  homeSchedule : Except UpstreamError SchedulePayload
  awaySchedule : Except UpstreamError SchedulePayload

def exceptError {ε α : Type} : Except ε α → Option ε
  | Except.error e => some e
  | Except.ok _ => none

/-- The error (if any) with which the call of a given role settled. -/
def MatchupCalls.errorAt (c : MatchupCalls) : Role → Option UpstreamError
  | Role.homeRoster => exceptError c.homeRoster
  | Role.awayRoster => exceptError c.awayRoster
  | Role.homeSchedule => exceptError c.homeSchedule
  | Role.awaySchedule => exceptError c.awaySchedule

/-- The first rejection observed along the completion order, which is the
error `Promise.all` rejects the join with. -/
def firstSettledError (c : MatchupCalls) (order : List Role) : Option UpstreamError :=
  List.findSome? c.errorAt order

/-- Model of the `matchup` handler of `src/unnamed/part_000` after
resolution: `await Promise.all([...])` rejects with the first observed
failure, otherwise the role-keyed aggregate is built.  The last match arm is
unreachable whenever `order` lists every role. -/
def matchupHandler (homeIn awayIn : List Char) (c : MatchupCalls)
    (order : List Role) : Except UpstreamError MatchupOutput :=
  match firstSettledError c order with
  | some e => Except.error e
  | none =>
    match c.homeRoster, c.awayRoster, c.homeSchedule, c.awaySchedule with
    | Except.ok hr, Except.ok ar, Except.ok hs, Except.ok asch =>
      Except.ok (matchupAggregate homeIn awayIn hr ar hs asch)
    | _, _, _, _ => Except.error UpstreamError.transportError

/-! ## Leaders normalizer (`leaders` handler of `src/unnamed/part_000`) -/

/-- The `stats.find((s) => s.name === key)?.value` lookup pattern of the
`leaders` handler. -/
def statValue (stats : List LeaderStat) (key : String) : Option String :=
  (List.find? (fun s => s.name == some key) stats).bind (·.value)

structure LeaderRow where
  rank : Nat
  name : Option String
  team : Option String
  position : Option String
  gamesPlayed : Option String
  points : Option String
  rebounds : Option String
  assists : Option String
  steals : Option String
  blocks : Option String
  deriving DecidableEq

/-- Model of the per-athlete normalizer of the `leaders` handler of
`src/unnamed/part_000`: rank is `i + 1`, the 1-based position in the received
sequence, with no re-sorting. -/
def leaderRow (i : Nat) (a : LeaderEntry) : LeaderRow :=
  let stats := ((a.categories.bind List.head?).bind (·.stats)).getD []
  { rank := i + 1
    name := a.athlete.bind (·.displayName)
    team := a.athlete.bind (·.teamShortName)
    position := (a.athlete.bind (·.position)).bind (·.abbreviation)
    gamesPlayed := statValue stats "gamesPlayed"
    points := statValue stats "avgPoints"
    rebounds := statValue stats "avgRebounds"
    assists := statValue stats "avgAssists"
    steals := statValue stats "avgSteals"
    blocks := statValue stats "avgBlocks" }

/-- Model of the leaders list construction
`data.athletes?.map((a, i) => ({rank: i + 1, ...})) || []`. -/
def leadersHandler (data : LeadersPayload) : List LeaderRow :=
  mapWithIndexFrom leaderRow 0 (data.athletes.getD [])

/-! ## Concrete fixtures used by the witnesses -/

/-- An upstream event with every optional field absent. -/
def emptyEvent : Event :=
  { id := none, name := none, shortName := none, date := none, status := none
    competitions := none }

/-- A roster payload with every optional field absent. -/
def emptyRoster : RosterPayload := { team := none, athletes := none }

/-- A team object with every optional field absent. -/
def emptyTeamInfo : TeamInfo :=
  { id := none, displayName := none, abbreviation := none, location := none
    color := none, logo := none, logos := none }

/-- An athlete with every optional field absent. -/
def bareAthlete : Athlete :=
  { id := none, displayName := none, jersey := none, age := none
    displayHeight := none, displayWeight := none, position := none }

/-- A roster payload whose team object is present but carries no fields, and
whose athletes list is absent. -/
def teamNoNames : RosterPayload := { team := some emptyTeamInfo, athletes := none }

/-- A schedule payload with the events list absent. -/
def emptySchedule : SchedulePayload := { events := none }

/-- A scoreboard event in the `scheduled` state: status populated, both
competitors present, neither carrying a score field. -/
def scheduledEvent : Event :=
  { id := some "401766123"
    name := some "Los Angeles Lakers at Boston Celtics"
    shortName := some "LAL @ BOS"
    date := some "2026-10-12T23:30Z"
    status := some
      { type := some
          { description := some "Scheduled"
            shortDetail := some "10/12 - 7:30 PM EDT"
            state := some "pre"
            completed := some false }
        period := some "0"
        displayClock := some "0:00" }
    competitions := some
      [{ venue := some { fullName := some "TD Garden" }
         competitors := some
           [{ homeAway := some "home"
              team := some { displayName := some "Boston Celtics", abbreviation := some "BOS" }
              score := none
              winner := none },
            { homeAway := some "away"
              team := some { displayName := some "Los Angeles Lakers", abbreviation := some "LAL" }
              score := none
              winner := none }]
         broadcasts := none }] }

/-- A scoreboard payload holding just the scheduled event. -/
def scheduledScoreboard : ScoreboardPayload :=
  { events := some [scheduledEvent], day := some { date := some "2026-10-12" }
    season := none }

/-- Settled matchup calls where exactly one call (the away roster) failed. -/
def matchupCallsFail : MatchupCalls :=
  { homeRoster := Except.ok emptyRoster
    awayRoster := Except.error (UpstreamError.espnApiError 503)
    homeSchedule := Except.ok emptySchedule
    awaySchedule := Except.ok emptySchedule }

/-- Settled matchup calls where every call succeeded. -/
def matchupCallsOk : MatchupCalls :=
  { homeRoster := Except.ok emptyRoster
    awayRoster := Except.ok emptyRoster
    homeSchedule := Except.ok emptySchedule
    awaySchedule := Except.ok emptySchedule }

/-- One completion order of the four concurrent matchup calls. -/
def fullRoleOrder : List Role :=
  [Role.homeSchedule, Role.awayRoster, Role.homeRoster, Role.awaySchedule]

/-- A scoreboard payload with six (empty) events, more than the overview
truncation threshold of 5. -/
def sixEventScoreboard : ScoreboardPayload :=
  { events := some [emptyEvent, emptyEvent, emptyEvent, emptyEvent, emptyEvent, emptyEvent]
    day := none
    season := none }

/-! ## Generic list lemmas -/

theorem lookup_mem_values {α β : Type} [BEq α] (a : α) :
    ∀ (l : List (α × β)) (b : β), List.lookup a l = some b → ∃ p, p ∈ l ∧ p.2 = b := by
  intro l
  induction l with
  | nil => intro b h; simp [List.lookup] at h
  | cons hd t ih =>
    intro b h
    obtain ⟨k, v⟩ := hd
    by_cases hk : (a == k) = true
    · refine ⟨(k, v), List.mem_cons_self _ _, ?_⟩
      have hv : some v = some b := by simpa [List.lookup, hk] using h
      exact Option.some_injective _ hv
    · rw [Bool.not_eq_true] at hk
      have ht : List.lookup a t = some b := by simpa [List.lookup, hk] using h
      obtain ⟨p, hp, hpv⟩ := ih b ht
      exact ⟨p, List.mem_cons_of_mem _ hp, hpv⟩

theorem lookup_none_of_ne {α β : Type} [BEq α] (a : α) :
    ∀ l : List (α × β), (∀ p ∈ l, (a == p.1) = false) → List.lookup a l = none := by
  intro l
  induction l with
  | nil => intro _; rfl
  | cons hd t ih =>
    intro h
    obtain ⟨k, v⟩ := hd
    have hk := h (k, v) (List.mem_cons_self _ _)
    simp only [List.lookup, hk]
    exact ih fun p hp => h p (List.mem_cons_of_mem _ hp)

theorem findSome?_isSome_of_mem {α β : Type} (f : α → Option β) (a : α) (b : β) :
    ∀ l : List α, a ∈ l → f a = some b → ∃ c, List.findSome? f l = some c := by
  intro l
  induction l with
  | nil => intro h; simp at h
  | cons x t ih =>
    intro hmem hf
    rcases List.mem_cons.mp hmem with h | h
    · subst h
      exact ⟨b, by simp [List.findSome?_cons, hf]⟩
    · cases hx : f x with
      | some c => exact ⟨c, by simp [List.findSome?_cons, hx]⟩
      | none =>
        obtain ⟨c, hc⟩ := ih h hf
        exact ⟨c, by simp [List.findSome?_cons, hx, hc]⟩

theorem exists_of_findSome?_eq_some {α β : Type} (f : α → Option β) (b : β) :
    ∀ l : List α, List.findSome? f l = some b → ∃ a, a ∈ l ∧ f a = some b := by
  intro l
  induction l with
  | nil => intro h; simp at h
  | cons x t ih =>
    intro h
    cases hx : f x with
    | some c =>
      have : c = b := by simpa [List.findSome?_cons, hx] using h
      exact ⟨x, List.mem_cons_self _ _, by rw [hx, this]⟩
    | none =>
      have ht : List.findSome? f t = some b := by simpa [List.findSome?_cons, hx] using h
      obtain ⟨a, ha, hfa⟩ := ih ht
      exact ⟨a, List.mem_cons_of_mem _ ha, hfa⟩

theorem findSome?_eq_none_of_all {α β : Type} (f : α → Option β) :
    ∀ l : List α, (∀ a ∈ l, f a = none) → List.findSome? f l = none := by
  intro l
  induction l with
  | nil => intro _; rfl
  | cons x t ih =>
    intro h
    simp [List.findSome?_cons, h x (List.mem_cons_self _ _),
      ih fun a ha => h a (List.mem_cons_of_mem _ ha)]

theorem mem_of_head?_eq_some {α : Type} {l : List α} {a : α} (h : l.head? = some a) :
    a ∈ l := by
  cases l <;> simp_all

/-! ## Claim C3 -/

/-- C3: the team entrypoint normalizer of `src/src/index.ts` is not total —
applied to an upstream `/teams/:id` payload with no top-level `team` object
it throws a `TypeError` (reading `team.id` of `undefined`) instead of
returning a record with absent fields. -/
theorem teamHandlerIdx_missing_team_throws :
    teamHandlerIdx { team := none } { team := none, athletes := none } =
      Except.error JsError.typeError := rfl

/-! ## Claim C4 -/

/-- C4 counterexample: `extractTeamInfo` of `src/unnamed/part_000`, applied to
a roster payload whose `athletes` list is absent, populates `rosterSize` with
the fabricated default `0` (from `roster.athletes?.length || 0`) and
`starters` with `[]`, not with absent markers. -/
theorem extractTeamInfo_fabricates_rosterSize :
    ({ team := none, athletes := none } : RosterPayload).athletes = none ∧
    (extractTeamInfo { team := none, athletes := none }).rosterSize = 0 ∧
    (extractTeamInfo { team := none, athletes := none }).starters = [] :=
  ⟨rfl, rfl, rfl⟩

/-- C4 (amended): scalar output fields of `extractTeamInfo` read through
optional chaining propagate absence — the team name and abbreviation are
absent whenever the corresponding upstream field is absent (whether the team
object itself is absent or present without the field), and each starter's
name, jersey and position are absent whenever the athlete's corresponding
upstream field is absent, the starters being exactly the normalized first
five athletes — but the count and list fields derived from the athletes list
are defaulted instead: an absent `athletes` yields `rosterSize = 0` and
`starters = []`. -/
theorem extractTeamInfo_absent_fields (r : RosterPayload) (a : Athlete) :
    ((r.team.bind (·.displayName)) = none → (extractTeamInfo r).name = none) ∧
    ((r.team.bind (·.abbreviation)) = none →
      (extractTeamInfo r).abbreviation = none) ∧
    (a.displayName = none → (starterOut a).name = none) ∧
    (a.jersey = none → (starterOut a).jersey = none) ∧
    ((a.position.bind (·.abbreviation)) = none → (starterOut a).position = none) ∧
    ((extractTeamInfo r).starters = ((r.athletes.getD []).take 5).map starterOut) ∧
    (r.athletes = none →
      (extractTeamInfo r).rosterSize = 0 ∧ (extractTeamInfo r).starters = []) := by
  refine ⟨?_, ?_, ?_, ?_, ?_, ?_, ?_⟩
  · intro h; simp [extractTeamInfo, h]
  · intro h; simp [extractTeamInfo, h]
  · intro h; simp [starterOut, h]
  · intro h; simp [starterOut, h]
  · intro h; simp [starterOut, h]
  · cases h : r.athletes <;> simp [extractTeamInfo, h]
  · intro h; simp [extractTeamInfo, h]

theorem extractTeamInfo_absent_fields_witness :
    (extractTeamInfo teamNoNames).name = none ∧
    (extractTeamInfo teamNoNames).abbreviation = none ∧
    (starterOut bareAthlete).name = none ∧
    (starterOut bareAthlete).jersey = none ∧
    (starterOut bareAthlete).position = none ∧
    (extractTeamInfo teamNoNames).rosterSize = 0 ∧
    (extractTeamInfo teamNoNames).starters = [] := by
  obtain ⟨h1, h2, h3, h4, h5, _, h7⟩ :=
    extractTeamInfo_absent_fields teamNoNames bareAthlete
  exact ⟨h1 rfl, h2 rfl, h3 rfl, h4 rfl, h5 rfl, (h7 rfl).1, (h7 rfl).2⟩

/-! ## Claim C9 -/

/-- C9: the upstream client returns the parsed body exactly on a success
status (`Response.ok`, 200..299) and otherwise fails with the thrown error
carrying the raw HTTP status, with no retry — the classification is a pure
function of the single response. -/
theorem fetchJSON_status_contract {α : Type} (status : Nat) (body : α) :
    (responseOk status = true →
      fetchJSON (FetchOutcome.resp status body) = Except.ok body) ∧
    (responseOk status = false →
      fetchJSON (FetchOutcome.resp status body) =
        Except.error (UpstreamError.espnApiError status)) := by
  constructor <;> intro h <;> simp [fetchJSON, h]

theorem fetchJSON_status_contract_witness :
    fetchJSON (FetchOutcome.resp 200 "payload") = Except.ok "payload" ∧
    fetchJSON (FetchOutcome.resp 404 "payload") =
      Except.error (UpstreamError.espnApiError 404) :=
  ⟨(fetchJSON_status_contract 200 "payload").1 (by decide),
   (fetchJSON_status_contract 404 "payload").2 (by decide)⟩

/-! ## Claim C10 -/

/-- C10: the free overview output keeps only the first 5 events in payload
order while `gamesCount` counts every event of the payload, so on a payload
with more than 5 events the count exceeds the number of returned games. -/
theorem overview_truncation_and_count :
    (∀ data : ScoreboardPayload,
      (overviewHandler data).gamesCount = (data.events.getD []).length ∧
      (overviewHandler data).games =
        ((data.events.getD []).take 5).map overviewGame ∧
      (overviewHandler data).games.length ≤ 5) ∧
    (∃ data : ScoreboardPayload,
      (overviewHandler data).games.length < (overviewHandler data).gamesCount) := by
  constructor
  · intro data
    cases h : data.events with
    | none => simp [overviewHandler, h]
    | some evs =>
      refine ⟨?_, ?_, ?_⟩
      · simp [overviewHandler, h]
      · simp [overviewHandler, h, List.map_take]
      · simp only [overviewHandler, h, Option.map_some', Option.getD_some]
        exact (List.length_take_le 5 _)
  · exact ⟨sixEventScoreboard, by decide⟩

/-! ## Claim C5 -/

/-- If every competitor of the event carries no score field, any competitor
selected by the `find` of the scores normalizer has no score either. -/
theorem found_competitor_score_none (e : Event) (p : Competitor → Bool)
    (hscores : ∀ comp ∈ e.competitions.getD [], ∀ c ∈ comp.competitors.getD [],
      c.score = none) :
    ((((e.competitions.bind List.head?).bind (·.competitors)).bind
      (List.find? p)).bind (·.score)) = none := by
  cases hc : e.competitions with
  | none => simp
  | some comps =>
    cases hh : comps.head? with
    | none => simp [hh]
    | some comp0 =>
      cases hcs : comp0.competitors with
      | none => simp [hh, hcs]
      | some cs =>
        cases hf : List.find? p cs with
        | none => simp [hh, hcs, hf]
        | some c =>
          have hmem : comp0 ∈ comps := mem_of_head?_eq_some hh
          have hcmem : c ∈ cs := List.mem_of_find?_eq_some hf
          have hsc : c.score = none := by
            have h1 := hscores comp0 (by rw [hc]; simpa using hmem) c
            rw [hcs] at h1
            exact h1 (by simpa using hcmem)
          simp [hh, hcs, hf, hsc]

/-- C5: a scoreboard event whose status is populated and whose competitors
carry no score fields normalizes, inside the scores output, to a game record
with `homeScore` and `awayScore` both absent and `status` taken from the
payload. -/
theorem scheduled_event_scores_absent (data : ScoreboardPayload) (e : Event)
    (st : String)
    (he : e ∈ data.events.getD [])
    (hstatus : (e.status.bind (·.type)).bind (·.shortDetail) = some st)
    (hscores : ∀ comp ∈ e.competitions.getD [], ∀ c ∈ comp.competitors.getD [],
      c.score = none) :
    scoreGame e ∈ (scoresHandler data).games ∧
    (scoreGame e).homeScore = none ∧ (scoreGame e).awayScore = none ∧
    (scoreGame e).status = some st := by
  refine ⟨?_, ?_, ?_, ?_⟩
  · cases h : data.events with
    | none => rw [h] at he; simp at he
    | some evs =>
      rw [h] at he
      simp only [Option.getD_some] at he
      simp only [scoresHandler, h, Option.map_some', Option.getD_some]
      exact List.mem_map_of_mem _ he
  · simpa [scoreGame] using
      found_competitor_score_none e (fun c => c.homeAway == some "home") hscores
  · simpa [scoreGame] using
      found_competitor_score_none e (fun c => c.homeAway == some "away") hscores
  · simpa [scoreGame] using hstatus

theorem scheduled_event_scores_absent_witness :
    scoreGame scheduledEvent ∈ (scoresHandler scheduledScoreboard).games ∧
    (scoreGame scheduledEvent).homeScore = none ∧
    (scoreGame scheduledEvent).awayScore = none ∧
    (scoreGame scheduledEvent).status = some "10/12 - 7:30 PM EDT" :=
  scheduled_event_scores_absent scheduledScoreboard scheduledEvent
    "10/12 - 7:30 PM EDT" (by decide) (by decide) (by decide)

/-! ## Claim C6 -/

theorem mapWithIndexFrom_rank (l : List LeaderEntry) :
    ∀ i, (mapWithIndexFrom leaderRow i l).map (·.rank) =
      List.range' (i + 1) l.length := by
  induction l with
  | nil => intro i; rfl
  | cons a t ih =>
    intro i
    show (i + 1) :: (mapWithIndexFrom leaderRow (i + 1) t).map (·.rank) =
      List.range' (i + 1) (t.length + 1)
    rw [List.range'_succ, ih (i + 1)]

theorem mapWithIndexFrom_names (l : List LeaderEntry) :
    ∀ i, (mapWithIndexFrom leaderRow i l).map (·.name) =
      l.map (fun a => a.athlete.bind (·.displayName)) := by
  induction l with
  | nil => intro i; rfl
  | cons a t ih =>
    intro i
    show (a.athlete.bind (·.displayName)) ::
        (mapWithIndexFrom leaderRow (i + 1) t).map (·.name) =
      (a.athlete.bind (·.displayName)) ::
        t.map (fun x => x.athlete.bind (·.displayName))
    rw [ih (i + 1)]

/-- C6: the leaders normalizer assigns rank as the 1-based position in the
received athlete sequence — the ranks of the output are `[1, ..., n]` in
order — and keeps the athletes in received order without re-sorting,
independent of any field values. -/
theorem leaders_rank_positional (data : LeadersPayload) :
    (leadersHandler data).map (·.rank) =
      List.range' 1 (data.athletes.getD []).length ∧
    (leadersHandler data).map (·.name) =
      (data.athletes.getD []).map (fun a => a.athlete.bind (·.displayName)) :=
  ⟨mapWithIndexFrom_rank (data.athletes.getD []) 0,
   mapWithIndexFrom_names (data.athletes.getD []) 0⟩

/-! ## Claim C7 -/

/-- C7: if any one of the four concurrent upstream calls of the matchup
entrypoint fails, the handler result is a failure — the first rejection
observed along the completion order, itself the error of one of the settled
calls — and no partial aggregate is returned, whatever the other calls did. -/
theorem matchup_fail_fast (hi ai : List Char) (c : MatchupCalls)
    (order : List Role) (r : Role) (e : UpstreamError)
    (hmem : r ∈ order) (herr : c.errorAt r = some e) :
    ∃ e2, matchupHandler hi ai c order = Except.error e2 ∧
      firstSettledError c order = some e2 ∧
      ∃ r2, r2 ∈ order ∧ c.errorAt r2 = some e2 := by
  obtain ⟨e2, h2⟩ := findSome?_isSome_of_mem c.errorAt r e order hmem herr
  refine ⟨e2, ?_, h2, ?_⟩
  · simp [matchupHandler, firstSettledError, h2]
  · obtain ⟨r2, hr2, hfr2⟩ := exists_of_findSome?_eq_some c.errorAt e2 order h2
    exact ⟨r2, hr2, hfr2⟩

theorem matchup_fail_fast_witness :
    ∃ e2, matchupHandler "BOS".data "LAL".data matchupCallsFail fullRoleOrder =
        Except.error e2 ∧
      firstSettledError matchupCallsFail fullRoleOrder = some e2 ∧
      ∃ r2, r2 ∈ fullRoleOrder ∧ matchupCallsFail.errorAt r2 = some e2 :=
  matchup_fail_fast "BOS".data "LAL".data matchupCallsFail fullRoleOrder
    Role.awayRoster (UpstreamError.espnApiError 503) (by decide) rfl

/-! ## Claim C8 -/

/-- C8: when every upstream call succeeded, the matchup result is exactly the
aggregate of the four payloads keyed by logical role, and it is identical
under any two completion orders of the concurrent calls. -/
theorem matchup_order_independent (hi ai : List Char) (c : MatchupCalls)
    (hr ar : RosterPayload) (hs asch : SchedulePayload)
    (h1 : c.homeRoster = Except.ok hr) (h2 : c.awayRoster = Except.ok ar)
    (h3 : c.homeSchedule = Except.ok hs) (h4 : c.awaySchedule = Except.ok asch)
    (o1 o2 : List Role) :
    matchupHandler hi ai c o1 = Except.ok (matchupAggregate hi ai hr ar hs asch) ∧
    matchupHandler hi ai c o1 = matchupHandler hi ai c o2 := by
  have hnone : ∀ ro : Role, c.errorAt ro = none := by
    intro ro
    cases ro <;> simp [MatchupCalls.errorAt, h1, h2, h3, h4, exceptError]
  have key : ∀ o : List Role,
      matchupHandler hi ai c o = Except.ok (matchupAggregate hi ai hr ar hs asch) := by
    intro o
    have hfse : firstSettledError c o = none :=
      findSome?_eq_none_of_all c.errorAt o fun a _ => hnone a
    simp [matchupHandler, hfse, h1, h2, h3, h4]
  exact ⟨key o1, (key o1).trans (key o2).symm⟩

theorem matchup_order_independent_witness :
    matchupHandler "BOS".data "LAL".data matchupCallsOk fullRoleOrder =
      Except.ok (matchupAggregate "BOS".data "LAL".data emptyRoster emptyRoster
        emptySchedule emptySchedule) ∧
    matchupHandler "BOS".data "LAL".data matchupCallsOk fullRoleOrder =
      matchupHandler "BOS".data "LAL".data matchupCallsOk fullRoleOrder.reverse :=
  matchup_order_independent "BOS".data "LAL".data matchupCallsOk emptyRoster
    emptyRoster emptySchedule emptySchedule rfl rfl rfl rfl fullRoleOrder
    fullRoleOrder.reverse

/-! ## Resolver lemmas -/

theorem jsToUpperChar_digit (c : Char) (h : jsIsDigit c = true) :
    jsToUpperChar c = c := by
  have h2 : 48 ≤ c.toNat ∧ c.toNat ≤ 57 := by simpa [jsIsDigit] using h
  unfold jsToUpperChar
  rw [if_neg (by omega : ¬(97 ≤ c.toNat ∧ c.toNat ≤ 122))]

theorem jsToUpper_digits : ∀ s : List Char, s.all jsIsDigit = true → jsToUpper s = s := by
  intro s
  induction s with
  | nil => intro _; rfl
  | cons c t ih =>
    intro h
    rw [List.all_cons, Bool.and_eq_true] at h
    show (c :: t).map jsToUpperChar = c :: t
    rw [List.map_cons, jsToUpperChar_digit c h.1]
    exact congrArg (c :: ·) (ih h.2)

/-- Every alias key of the part_000 table contains a non-digit character. -/
theorem p0_keys_have_nondigit :
    ∀ p ∈ TEAM_ABBR_TO_ID, ∃ c ∈ p.1, jsIsDigit c = false := by decide

/-- Every value of the part_000 table is a nonempty (hence truthy) string. -/
theorem p0_values_truthy : ∀ p ∈ TEAM_ABBR_TO_ID, p.2.isEmpty = false := by decide

/-- Every value of the index.ts table is a nonzero (hence truthy) number. -/
theorem idx_values_truthy : ∀ p ∈ TEAM_IDS, ¬p.2 = 0 := by decide

/-- A digits-only string misses the part_000 alias table, whose keys all
contain a non-digit character. -/
theorem lookup_digits_miss_P0 (s : List Char) (h : s.all jsIsDigit = true) :
    List.lookup s TEAM_ABBR_TO_ID = none := by
  apply lookup_none_of_ne
  intro p hp
  rw [beq_eq_false_iff_ne]
  intro heq
  obtain ⟨c, hc, hcd⟩ := p0_keys_have_nondigit p hp
  rw [← heq] at hc
  rw [List.all_eq_true] at h
  rw [h c hc] at hcd
  exact Bool.noConfusion hcd

/-- Every `Object.prototype` property name contains a non-digit character. -/
theorem proto_keys_have_nondigit :
    ∀ k ∈ objectProtoKeys, ∃ c ∈ k, jsIsDigit c = false := by decide

/-- A digits-only string is not an `Object.prototype` property name. -/
theorem digits_notin_protoKeys (s : List Char) (h : s.all jsIsDigit = true) :
    ¬s ∈ objectProtoKeys := by
  intro hs
  obtain ⟨c, hc, hcd⟩ := proto_keys_have_nondigit s hs
  rw [List.all_eq_true] at h
  rw [h c hc] at hcd
  exact Bool.noConfusion hcd

/-- An own-property result of the modelled property read comes from the own
key table. -/
theorem jsGetProp_own_eq_lookup {α : Type} (tbl : List (List Char × α))
    (key : List Char) (v : α) (hg : jsGetProp tbl key = some (JsPropValue.own v)) :
    List.lookup key tbl = some v := by
  cases h : List.lookup key tbl with
  | some w =>
    rw [jsGetProp, h] at hg
    have hw : JsPropValue.own (α := α) w = JsPropValue.own v :=
      Option.some_injective _ hg
    cases hw
    rfl
  | none =>
    rw [jsGetProp, h] at hg
    by_cases hk : key ∈ objectProtoKeys
    · simp [hk] at hg
    · simp [hk] at hg

/-- A digits-only string misses the whole part_000 property read: it is
neither an own alias key nor an inherited `Object.prototype` member. -/
theorem jsGetProp_digits_miss_P0 (s : List Char) (h : s.all jsIsDigit = true) :
    jsGetProp TEAM_ABBR_TO_ID s = none := by
  rw [jsGetProp, lookup_digits_miss_P0 s h]
  simp [digits_notin_protoKeys s h]

/-! ## Claim C1 -/

/-- C1 counterexample: `5abc` is neither an alias-table hit (its
normalization misses the index.ts table, own keys and inherited members
alike) nor digits-only, yet the index.ts resolver accepts it — `parseInt`
reads the leading `5` — instead of failing with the unknown-team error. -/
theorem resolveTeamIdIdx_accepts_nondigits :
    resolveTeamIdIdx "5abc".data = Except.ok (IdxResolved.num 5) ∧
    jsGetProp TEAM_IDS (jsTrim (jsToLower "5abc".data)) = none ∧
    digitsOnly "5abc".data = false :=
  ⟨rfl, rfl, rfl⟩

set_option maxRecDepth 4000 in
/-- C1 (amended): every alias key of either table resolves to its canonical
ID, and a lookup that hits an inherited `Object.prototype` member (e.g. an
index.ts input normalizing to `constructor` or `__proto__`) is truthy and is
returned, not rejected.  For an ASCII identifier whose normalization misses
the whole property read: the part_000 resolver rejects unless the raw input
is digits-only; the index.ts resolver instead hands the raw input to JS
`parseInt` — it rejects when the parsed value is absent or outside 1..30,
but accepts any input whose leading characters parse to a number in 1..30,
digits-only or not. -/
theorem resolver_alias_and_rejection :
    (∀ p ∈ TEAM_ABBR_TO_ID, resolveTeamIdP0 p.1 = Except.ok (P0Resolved.str p.2)) ∧
    (∀ s v, jsGetProp TEAM_ABBR_TO_ID (jsToUpper s) = some (JsPropValue.own v) →
      resolveTeamIdP0 s = Except.ok (P0Resolved.str v)) ∧
    (∀ s, jsAscii s = true → jsGetProp TEAM_ABBR_TO_ID (jsToUpper s) = none →
      digitsOnly s = false →
      resolveTeamIdP0 s = Except.error (unknownTeamMsgP0 s)) ∧
    (∀ p ∈ TEAM_IDS, resolveTeamIdIdx p.1 = Except.ok (IdxResolved.num p.2)) ∧
    (∀ s v, jsGetProp TEAM_IDS (jsTrim (jsToLower s)) = some (JsPropValue.own v) →
      resolveTeamIdIdx s = Except.ok (IdxResolved.num v)) ∧
    (∀ s k, jsGetProp TEAM_IDS (jsTrim (jsToLower s)) = some (JsPropValue.inherited k) →
      resolveTeamIdIdx s = Except.ok (IdxResolved.protoMember k)) ∧
    (∀ s, jsAscii s = true → jsGetProp TEAM_IDS (jsTrim (jsToLower s)) = none →
      (∀ n, jsParseInt s = some n → ¬(1 ≤ n ∧ n ≤ 30)) →
      resolveTeamIdIdx s = Except.error (unknownTeamMsgIdx s)) ∧
    (∀ s n, jsGetProp TEAM_IDS (jsTrim (jsToLower s)) = none →
      jsParseInt s = some n → 1 ≤ n → n ≤ 30 →
      resolveTeamIdIdx s = Except.ok (IdxResolved.num n)) := by
  refine ⟨by decide, ?_, ?_, by decide, ?_, ?_, ?_, ?_⟩
  · intro s v hg
    have hl := jsGetProp_own_eq_lookup TEAM_ABBR_TO_ID (jsToUpper s) v hg
    obtain ⟨p, hp, hpv⟩ := lookup_mem_values (jsToUpper s) TEAM_ABBR_TO_ID v hl
    have hne : v.isEmpty = false := by rw [← hpv]; exact p0_values_truthy p hp
    simp [resolveTeamIdP0, hg, hne]
  · intro s _ hg hd
    simp [resolveTeamIdP0, hg, p0NumericFallback, hd]
  · intro s v hg
    have hl := jsGetProp_own_eq_lookup TEAM_IDS (jsTrim (jsToLower s)) v hg
    obtain ⟨p, hp, hpv⟩ := lookup_mem_values (jsTrim (jsToLower s)) TEAM_IDS v hl
    have hne : ¬v = 0 := by rw [← hpv]; exact idx_values_truthy p hp
    simp [resolveTeamIdIdx, hg, hne]
  · intro s k hg
    simp [resolveTeamIdIdx, hg]
  · intro s _ hg hno
    cases hp : jsParseInt s with
    | none => simp [resolveTeamIdIdx, hg, idxNumericFallback, hp]
    | some n => simp [resolveTeamIdIdx, hg, idxNumericFallback, hp, hno n hp]
  · intro s n hg hp hn1 hn30
    simp [resolveTeamIdIdx, hg, idxNumericFallback, hp, hn1, hn30]

theorem resolver_alias_and_rejection_witness :
    resolveTeamIdP0 "LAL".data = Except.ok (P0Resolved.str "13".data) ∧
    resolveTeamIdP0 "lal".data = Except.ok (P0Resolved.str "13".data) ∧
    resolveTeamIdP0 "XYZ".data = Except.error (unknownTeamMsgP0 "XYZ".data) ∧
    resolveTeamIdIdx "lakers".data = Except.ok (IdxResolved.num 13) ∧
    resolveTeamIdIdx "constructor".data =
      Except.ok (IdxResolved.protoMember "constructor".data) ∧
    resolveTeamIdIdx "XYZ".data = Except.error (unknownTeamMsgIdx "XYZ".data) ∧
    resolveTeamIdIdx "13".data = Except.ok (IdxResolved.num 13) := by
  refine ⟨?_, ?_, ?_, ?_, ?_, ?_, ?_⟩
  · exact resolver_alias_and_rejection.1 ("LAL".data, "13".data) (by decide)
  · exact resolver_alias_and_rejection.2.1 "lal".data "13".data rfl
  · exact resolver_alias_and_rejection.2.2.1 "XYZ".data (by decide) rfl rfl
  · exact resolver_alias_and_rejection.2.2.2.1 ("lakers".data, 13) (by decide)
  · exact resolver_alias_and_rejection.2.2.2.2.2.1 "constructor".data
      "constructor".data rfl
  · refine resolver_alias_and_rejection.2.2.2.2.2.2.1 "XYZ".data (by decide) rfl ?_
    intro n hn
    have h0 : jsParseInt "XYZ".data = none := rfl
    rw [h0] at hn
    exact Option.noConfusion hn
  · exact resolver_alias_and_rejection.2.2.2.2.2.2.2 "13".data 13 rfl rfl
      (by decide) (by decide)

/-! ## Claim C2 -/

/-- C2: numeric passthrough — a digits-only identifier misses the whole
part_000 alias property read (own keys and inherited members alike) and is
returned verbatim by its resolver, and every canonical team ID 1..30,
written in decimal, is returned as its numeric value by the index.ts
resolver after the alias lookup misses. -/
theorem resolve_numeric_passthrough :
    (∀ s : List Char, digitsOnly s = true →
      jsGetProp TEAM_ABBR_TO_ID (jsToUpper s) = none ∧
      resolveTeamIdP0 s = Except.ok (P0Resolved.str s)) ∧
    (∀ n : Nat, 1 ≤ n → n ≤ 30 →
      resolveTeamIdIdx (Nat.repr n).data = Except.ok (IdxResolved.num (n : Int))) := by
  constructor
  · intro s hs
    have hall : s.all jsIsDigit = true := by
      rw [digitsOnly, Bool.and_eq_true] at hs
      exact hs.2
    have hmiss : jsGetProp TEAM_ABBR_TO_ID (jsToUpper s) = none := by
      rw [jsToUpper_digits s hall]
      exact jsGetProp_digits_miss_P0 s hall
    refine ⟨hmiss, ?_⟩
    simp [resolveTeamIdP0, hmiss, p0NumericFallback, hs]
  · have hb : ∀ n, n < 31 → 1 ≤ n →
        resolveTeamIdIdx (Nat.repr n).data = Except.ok (IdxResolved.num (n : Int)) := by
      decide
    intro n h1 h30
    exact hb n (by omega) h1

theorem resolve_numeric_passthrough_witness :
    (jsGetProp TEAM_ABBR_TO_ID (jsToUpper "13".data) = none ∧
      resolveTeamIdP0 "13".data = Except.ok (P0Resolved.str "13".data)) ∧
    resolveTeamIdIdx (Nat.repr 13).data = Except.ok (IdxResolved.num (13 : Int)) :=
  ⟨resolve_numeric_passthrough.1 "13".data (by decide),
   resolve_numeric_passthrough.2 13 (by decide) (by decide)⟩

end NBA
